import Mathlib

/-!
Shallow embedding of `rclrs/src/subscription/message_info.rs`.

Machine integers are modelled as `Int` (for the signed 64-bit timestamp
fields) and `Nat` (for the unsigned 64-bit sequence counters and the bytes
of the publisher GID), with the 64-bit ranges stated explicitly where they
matter.  A Rust `SystemTime` is modelled as a signed nanosecond offset from
`UNIX_EPOCH`; a `Duration` is a nonnegative nanosecond count.  The raw
`implementation_identifier` pointer is modelled by its address, a `Nat`:
Rust's derived `PartialEq` compares raw pointers by address.
-/

/-- Size in bytes of an RMW publisher GID (`RMW_GID_STORAGE_SIZE` in the
rmw C bindings). -/
def RMW_GID_STORAGE_SIZE : Nat := 24

/-- Model of Rust `std::time::Duration`, reduced to its nanosecond count
(the source only ever builds durations via `Duration::from_nanos`). -/
structure Duration where
  nanos : Nat
deriving DecidableEq, Repr

/-- `Duration::from_nanos` on a `u64` argument. -/
def Duration.from_nanos (n : Nat) : Duration := ⟨n⟩

/-- `Duration::from_nanos` with the `u64` parameter range made explicit:
an argument that does not fit in 64 unsigned bits cannot be passed. -/
def Duration.from_nanos_checked (n : Nat) : Option Duration :=
  if n < 2 ^ 64 then some ⟨n⟩ else none

/-- Model of Rust `std::time::SystemTime` as a signed nanosecond offset
from the Unix epoch. -/
structure SystemTime where
  nanosSinceEpoch : Int
deriving DecidableEq, Repr

/-- `SystemTime::UNIX_EPOCH`. -/
def SystemTime.UNIX_EPOCH : SystemTime := ⟨0⟩

/-- `SystemTime + Duration` (the `Add<Duration>` impl). -/
def SystemTime.add (t : SystemTime) (d : Duration) : SystemTime :=
  ⟨t.nanosSinceEpoch + (d.nanos : Int)⟩

/-- `SystemTime - Duration` (the `Sub<Duration>` impl). -/
def SystemTime.sub (t : SystemTime) (d : Duration) : SystemTime :=
  ⟨t.nanosSinceEpoch - (d.nanos : Int)⟩

/-- The raw `rmw_gid_t` record: a fixed-size byte buffer and a raw
pointer to the implementation name (modelled by its address). -/
structure rmw_gid_t where
  data : List Nat
  implementation_identifier : Nat
deriving DecidableEq, Repr

/-- The raw `rmw_message_info_t` record handed over by the middleware. -/
structure rmw_message_info_t where
  source_timestamp : Int
  received_timestamp : Int
  publication_sequence_number : Nat
  reception_sequence_number : Nat
  publisher_gid : rmw_gid_t
  from_intra_process : Bool
deriving DecidableEq, Repr

/-- `PublisherGid` from the source: the identifying bytes and the raw
`implementation_identifier` pointer.  The Rust type derives `PartialEq`
and `Eq`, which compare all fields, the raw pointer by address; this is
modelled by propositional equality of this structure. -/
structure PublisherGid where
  data : List Nat
  implementation_identifier : Nat
deriving DecidableEq, Repr

/-- `MessageInfo` from the source. -/
structure MessageInfo where
  source_timestamp : Option SystemTime
  received_timestamp : Option SystemTime
  publication_sequence_number : Nat
  reception_sequence_number : Nat
  publisher_gid : PublisherGid
deriving DecidableEq, Repr

/-- `MessageInfo::from_rmw_message_info`, translated clause by clause:
each timestamp field goes through the three-way match on `0`, `ts < 0`
and `ts` (the last two arms taking the magnitude with `unsigned_abs`,
i.e. `Int.natAbs`), and the remaining fields are copied through. -/
def MessageInfo.from_rmw_message_info (rmw_message_info : rmw_message_info_t) :
    MessageInfo :=
  let source_timestamp :=
    if rmw_message_info.source_timestamp = 0 then none
    else if rmw_message_info.source_timestamp < 0 then
      some (SystemTime.UNIX_EPOCH.sub
        (Duration.from_nanos rmw_message_info.source_timestamp.natAbs))
    else
      some (SystemTime.UNIX_EPOCH.add
        (Duration.from_nanos rmw_message_info.source_timestamp.natAbs))
  let received_timestamp :=
    if rmw_message_info.received_timestamp = 0 then none
    else if rmw_message_info.received_timestamp < 0 then
      some (SystemTime.UNIX_EPOCH.sub
        (Duration.from_nanos rmw_message_info.received_timestamp.natAbs))
    else
      some (SystemTime.UNIX_EPOCH.add
        (Duration.from_nanos rmw_message_info.received_timestamp.natAbs))
  let publisher_gid : PublisherGid :=
    { data := rmw_message_info.publisher_gid.data
      implementation_identifier :=
        rmw_message_info.publisher_gid.implementation_identifier }
  { source_timestamp := source_timestamp
    received_timestamp := received_timestamp
    publication_sequence_number := rmw_message_info.publication_sequence_number
    reception_sequence_number := rmw_message_info.reception_sequence_number
    publisher_gid := publisher_gid }

/-- The timestamp branch of the conversion, factored out for reasoning;
`from_rmw_ts_eq_source` and `from_rmw_ts_eq_received` below prove it is
exactly what `MessageInfo.from_rmw_message_info` computes per field. -/
def timestamp_to_system_time (ts : Int) : Option SystemTime :=
  if ts = 0 then none
  else if ts < 0 then
    some (SystemTime.UNIX_EPOCH.sub (Duration.from_nanos ts.natAbs))
  else
    some (SystemTime.UNIX_EPOCH.add (Duration.from_nanos ts.natAbs))

/-- The timestamp branch with the `u64` range of the `Duration::from_nanos`
parameter checked instead of assumed: `none` marks a magnitude that would
not fit the `u64` argument. -/
def timestamp_to_system_time_checked (ts : Int) : Option (Option SystemTime) :=
  if ts = 0 then some none
  else if ts < 0 then
    (Duration.from_nanos_checked ts.natAbs).map
      (fun d => some (SystemTime.UNIX_EPOCH.sub d))
  else
    (Duration.from_nanos_checked ts.natAbs).map
      (fun d => some (SystemTime.UNIX_EPOCH.add d))

/-- The whole conversion with the `u64` range checks of
`Duration::from_nanos` made explicit; `none` marks a failure of those
checks. -/
def MessageInfo.from_rmw_message_info_checked (r : rmw_message_info_t) :
    Option MessageInfo :=
  match timestamp_to_system_time_checked r.source_timestamp,
      timestamp_to_system_time_checked r.received_timestamp with
  | some st, some rt =>
    some
      { source_timestamp := st
        received_timestamp := rt
        publication_sequence_number := r.publication_sequence_number
        reception_sequence_number := r.reception_sequence_number
        publisher_gid :=
          { data := r.publisher_gid.data
            implementation_identifier :=
              r.publisher_gid.implementation_identifier } }
  | _, _ => none

/-- Well-formedness of a raw record: every field holds a value its C type
can represent (signed/unsigned 64-bit ranges, a `RMW_GID_STORAGE_SIZE`-byte
buffer of bytes). -/
def rmw_message_info_t.wf (r : rmw_message_info_t) : Prop :=
  -(2 ^ 63) ≤ r.source_timestamp ∧ r.source_timestamp < 2 ^ 63 ∧
  -(2 ^ 63) ≤ r.received_timestamp ∧ r.received_timestamp < 2 ^ 63 ∧
  r.publication_sequence_number < 2 ^ 64 ∧
  r.reception_sequence_number < 2 ^ 64 ∧
  r.publisher_gid.data.length = RMW_GID_STORAGE_SIZE ∧
  ∀ b ∈ r.publisher_gid.data, b < 256

instance (r : rmw_message_info_t) : Decidable r.wf := by
  unfold rmw_message_info_t.wf
  infer_instance

theorem from_rmw_ts_eq_source (r : rmw_message_info_t) :
    (MessageInfo.from_rmw_message_info r).source_timestamp
      = timestamp_to_system_time r.source_timestamp := rfl

theorem from_rmw_ts_eq_received (r : rmw_message_info_t) :
    (MessageInfo.from_rmw_message_info r).received_timestamp
      = timestamp_to_system_time r.received_timestamp := rfl

theorem timestamp_checked_eq (ts : Int) (hlo : -(2 ^ 63) ≤ ts) (hhi : ts < 2 ^ 63) :
    timestamp_to_system_time_checked ts = some (timestamp_to_system_time ts) := by
  have habs : ts.natAbs < 2 ^ 64 := by omega
  unfold timestamp_to_system_time_checked timestamp_to_system_time
    Duration.from_nanos_checked Duration.from_nanos
  split_ifs <;> simp [habs]

/-- Concrete `PublisherGid` with zero-filled bytes and identifier address 0. -/
def gidA : PublisherGid :=
  { data := List.replicate RMW_GID_STORAGE_SIZE 0, implementation_identifier := 0 }

/-- Concrete `PublisherGid` with the same bytes as `gidA` but identifier
address 1. -/
def gidB : PublisherGid :=
  { data := List.replicate RMW_GID_STORAGE_SIZE 0, implementation_identifier := 1 }

/-- Claim C1, counterexample: `gidA` and `gidB` have byte-equal `data` but
differing `implementation_identifier` references, and the derived equality
of `PublisherGid` does NOT consider them equal — the claim that equality
is decided by the bytes alone is false on the code. -/
theorem publisherGid_eq_bytes_alone_counterexample :
    gidA.data = gidB.data ∧ ¬ gidA = gidB := by
  constructor
  · rfl
  · decide

/-- Claim C1, amended: the derived equality on `PublisherGid` compares all
fields — two values are equal iff their `data` bytes are equal AND their
`implementation_identifier` references are equal; in particular values
with differing `data` never compare equal. -/
theorem publisherGid_eq_iff (g1 g2 : PublisherGid) :
    g1 = g2 ↔
      g1.data = g2.data ∧
        g1.implementation_identifier = g2.implementation_identifier := by
  cases g1
  cases g2
  simp

/-- Claim C2: for every negative signed 64-bit timestamp (source or
received), including the minimum representable value, the conversion
yields `some` of `UNIX_EPOCH` minus the unsigned absolute value of the
timestamp in nanoseconds; that magnitude always fits the `u64` parameter
of `Duration::from_nanos` (no overflow), so the range-checked conversion
branch also succeeds. -/
theorem from_rmw_negative_timestamp (r : rmw_message_info_t)
    (hslo : -(2 ^ 63) ≤ r.source_timestamp) (hsneg : r.source_timestamp < 0)
    (hrlo : -(2 ^ 63) ≤ r.received_timestamp)
    (hrneg : r.received_timestamp < 0) :
    ((MessageInfo.from_rmw_message_info r).source_timestamp
        = some (SystemTime.UNIX_EPOCH.sub
            (Duration.from_nanos r.source_timestamp.natAbs))
      ∧ r.source_timestamp.natAbs < 2 ^ 64
      ∧ timestamp_to_system_time_checked r.source_timestamp
        = some (some (SystemTime.UNIX_EPOCH.sub
            (Duration.from_nanos r.source_timestamp.natAbs))))
    ∧ ((MessageInfo.from_rmw_message_info r).received_timestamp
        = some (SystemTime.UNIX_EPOCH.sub
            (Duration.from_nanos r.received_timestamp.natAbs))
      ∧ r.received_timestamp.natAbs < 2 ^ 64
      ∧ timestamp_to_system_time_checked r.received_timestamp
        = some (some (SystemTime.UNIX_EPOCH.sub
            (Duration.from_nanos r.received_timestamp.natAbs)))) := by
  have hsne : r.source_timestamp ≠ 0 := by omega
  have hrne : r.received_timestamp ≠ 0 := by omega
  have hsabs : r.source_timestamp.natAbs < 2 ^ 64 := by omega
  have hrabs : r.received_timestamp.natAbs < 2 ^ 64 := by omega
  refine ⟨⟨?_, hsabs, ?_⟩, ⟨?_, hrabs, ?_⟩⟩
  · rw [from_rmw_ts_eq_source]
    simp [timestamp_to_system_time, hsne, hsneg]
  · simp [timestamp_to_system_time_checked, hsne, hsneg,
      Duration.from_nanos_checked, Duration.from_nanos, hsabs]
    omega
  · rw [from_rmw_ts_eq_received]
    simp [timestamp_to_system_time, hrne, hrneg]
  · simp [timestamp_to_system_time_checked, hrne, hrneg,
      Duration.from_nanos_checked, Duration.from_nanos, hrabs]
    omega

/-- Raw record whose two timestamps both hold the minimum representable
signed 64-bit value. -/
def recMin : rmw_message_info_t :=
  { source_timestamp := -(2 ^ 63)
    received_timestamp := -(2 ^ 63)
    publication_sequence_number := 0
    reception_sequence_number := 0
    publisher_gid :=
      { data := List.replicate RMW_GID_STORAGE_SIZE 0
        implementation_identifier := 0 }
    from_intra_process := false }

/-- Claim C2, witness at the minimum representable signed 64-bit value. -/
theorem from_rmw_negative_timestamp_witness :
    ((MessageInfo.from_rmw_message_info recMin).source_timestamp
        = some (SystemTime.UNIX_EPOCH.sub
            (Duration.from_nanos recMin.source_timestamp.natAbs))
      ∧ recMin.source_timestamp.natAbs < 2 ^ 64
      ∧ timestamp_to_system_time_checked recMin.source_timestamp
        = some (some (SystemTime.UNIX_EPOCH.sub
            (Duration.from_nanos recMin.source_timestamp.natAbs))))
    ∧ ((MessageInfo.from_rmw_message_info recMin).received_timestamp
        = some (SystemTime.UNIX_EPOCH.sub
            (Duration.from_nanos recMin.received_timestamp.natAbs))
      ∧ recMin.received_timestamp.natAbs < 2 ^ 64
      ∧ timestamp_to_system_time_checked recMin.received_timestamp
        = some (some (SystemTime.UNIX_EPOCH.sub
            (Duration.from_nanos recMin.received_timestamp.natAbs)))) :=
  from_rmw_negative_timestamp recMin (by decide) (by decide) (by decide)
    (by decide)

/-- Claim C3: the conversion is total — for every well-formed raw record
(any 64-bit pattern in the timestamp and sequence fields, any bytes in the
identity buffer, any identifier address) the range-checked conversion
succeeds and returns exactly what `from_rmw_message_info` computes; being
a plain function of its argument, it is deterministic and side-effect
free. -/
theorem from_rmw_total (r : rmw_message_info_t) (h : r.wf) :
    MessageInfo.from_rmw_message_info_checked r
      = some (MessageInfo.from_rmw_message_info r) := by
  obtain ⟨h1, h2, h3, h4, -, -, -, -⟩ := h
  unfold MessageInfo.from_rmw_message_info_checked
  rw [timestamp_checked_eq _ h1 h2, timestamp_checked_eq _ h3 h4]
  rfl

/-- Raw record with zero timestamps and sequence numbers, zero-filled
identity bytes and identifier address 0. -/
def recZero : rmw_message_info_t :=
  { source_timestamp := 0
    received_timestamp := 0
    publication_sequence_number := 0
    reception_sequence_number := 0
    publisher_gid :=
      { data := List.replicate RMW_GID_STORAGE_SIZE 0
        implementation_identifier := 0 }
    from_intra_process := false }

/-- Claim C3, witness on a concrete well-formed record. -/
theorem from_rmw_total_witness :
    MessageInfo.from_rmw_message_info_checked recZero
      = some (MessageInfo.from_rmw_message_info recZero) :=
  from_rmw_total recZero (by decide)

/-- Claim C4: a zero timestamp field (source or received) converts to an
absent timestamp, whatever the other fields hold. -/
theorem from_rmw_zero_timestamp (r : rmw_message_info_t) :
    (r.source_timestamp = 0 →
      (MessageInfo.from_rmw_message_info r).source_timestamp = none)
    ∧ (r.received_timestamp = 0 →
      (MessageInfo.from_rmw_message_info r).received_timestamp = none) := by
  constructor <;> intro h
  · rw [from_rmw_ts_eq_source]
    simp [timestamp_to_system_time, h]
  · rw [from_rmw_ts_eq_received]
    simp [timestamp_to_system_time, h]

/-- Raw record with zero timestamps but nonzero other fields, showing the
zero branch does not depend on them. -/
def recZeroTs : rmw_message_info_t :=
  { source_timestamp := 0
    received_timestamp := 0
    publication_sequence_number := 7
    reception_sequence_number := 9
    publisher_gid :=
      { data := List.replicate RMW_GID_STORAGE_SIZE 3
        implementation_identifier := 5 }
    from_intra_process := true }

/-- Claim C4, witness on a concrete record with zero timestamps. -/
theorem from_rmw_zero_timestamp_witness :
    (MessageInfo.from_rmw_message_info recZeroTs).source_timestamp = none
    ∧ (MessageInfo.from_rmw_message_info recZeroTs).received_timestamp
        = none :=
  ⟨(from_rmw_zero_timestamp recZeroTs).1 rfl,
    (from_rmw_zero_timestamp recZeroTs).2 rfl⟩

/-- Claim C5: a positive signed 64-bit timestamp field converts to `some`
of `UNIX_EPOCH` plus exactly that many nanoseconds. -/
theorem from_rmw_positive_timestamp (r : rmw_message_info_t) :
    (0 < r.source_timestamp → r.source_timestamp < 2 ^ 63 →
      (MessageInfo.from_rmw_message_info r).source_timestamp
          = some (SystemTime.UNIX_EPOCH.add
              (Duration.from_nanos r.source_timestamp.toNat))
        ∧ (SystemTime.UNIX_EPOCH.add
            (Duration.from_nanos r.source_timestamp.toNat)).nanosSinceEpoch
          = r.source_timestamp)
    ∧ (0 < r.received_timestamp → r.received_timestamp < 2 ^ 63 →
      (MessageInfo.from_rmw_message_info r).received_timestamp
          = some (SystemTime.UNIX_EPOCH.add
              (Duration.from_nanos r.received_timestamp.toNat))
        ∧ (SystemTime.UNIX_EPOCH.add
            (Duration.from_nanos r.received_timestamp.toNat)).nanosSinceEpoch
          = r.received_timestamp) := by
  constructor <;> intro hpos hhi
  · have hne : r.source_timestamp ≠ 0 := by omega
    have hnlt : ¬ r.source_timestamp < 0 := by omega
    have habs : r.source_timestamp.natAbs = r.source_timestamp.toNat := by
      omega
    constructor
    · rw [from_rmw_ts_eq_source]
      simp [timestamp_to_system_time, hne, hnlt, habs]
    · simp [SystemTime.add, SystemTime.UNIX_EPOCH, Duration.from_nanos]
      omega
  · have hne : r.received_timestamp ≠ 0 := by omega
    have hnlt : ¬ r.received_timestamp < 0 := by omega
    have habs : r.received_timestamp.natAbs = r.received_timestamp.toNat := by
      omega
    constructor
    · rw [from_rmw_ts_eq_received]
      simp [timestamp_to_system_time, hne, hnlt, habs]
    · simp [SystemTime.add, SystemTime.UNIX_EPOCH, Duration.from_nanos]
      omega

/-- Raw record with two positive timestamps. -/
def recPos : rmw_message_info_t :=
  { source_timestamp := 5
    received_timestamp := 7
    publication_sequence_number := 0
    reception_sequence_number := 0
    publisher_gid :=
      { data := List.replicate RMW_GID_STORAGE_SIZE 0
        implementation_identifier := 0 }
    from_intra_process := false }

/-- Claim C5, witness on a concrete record with positive timestamps. -/
theorem from_rmw_positive_timestamp_witness :
    ((MessageInfo.from_rmw_message_info recPos).source_timestamp
        = some (SystemTime.UNIX_EPOCH.add
            (Duration.from_nanos recPos.source_timestamp.toNat))
      ∧ (SystemTime.UNIX_EPOCH.add
          (Duration.from_nanos recPos.source_timestamp.toNat)).nanosSinceEpoch
        = recPos.source_timestamp)
    ∧ ((MessageInfo.from_rmw_message_info recPos).received_timestamp
        = some (SystemTime.UNIX_EPOCH.add
            (Duration.from_nanos recPos.received_timestamp.toNat))
      ∧ (SystemTime.UNIX_EPOCH.add
          (Duration.from_nanos recPos.received_timestamp.toNat)).nanosSinceEpoch
        = recPos.received_timestamp) :=
  ⟨(from_rmw_positive_timestamp recPos).1 (by decide) (by decide),
    (from_rmw_positive_timestamp recPos).2 (by decide) (by decide)⟩

/-- Claim C6: the conversion copies both sequence numbers and both fields
of the publisher identity through unchanged, for every raw record — in
particular any sentinel value such as the maximal unsigned 64-bit counter
passes through verbatim. -/
theorem from_rmw_passthrough (r : rmw_message_info_t) :
    (MessageInfo.from_rmw_message_info r).publication_sequence_number
        = r.publication_sequence_number
    ∧ (MessageInfo.from_rmw_message_info r).reception_sequence_number
        = r.reception_sequence_number
    ∧ (MessageInfo.from_rmw_message_info r).publisher_gid.data
        = r.publisher_gid.data
    ∧ (MessageInfo.from_rmw_message_info r).publisher_gid.implementation_identifier
        = r.publisher_gid.implementation_identifier :=
  ⟨rfl, rfl, rfl, rfl⟩

/-- Claim C7: two raw timestamps `ts1 < 0 < ts2` with `ts2 = -ts1` convert
to instants separated by exactly `ts2 - ts1` nanoseconds: the
negative-branch instant plus that gap is the positive-branch instant. -/
theorem from_rmw_opposite_timestamps_gap (r1 r2 : rmw_message_info_t)
    (ts1 ts2 : Int) (e1 : r1.source_timestamp = ts1)
    (e2 : r2.source_timestamp = ts2) (hneg : ts1 < 0) (hpos : 0 < ts2)
    (hopp : ts2 = -ts1) (hlo : -(2 ^ 63) ≤ ts1) :
    ∃ t1 t2 : SystemTime,
      (MessageInfo.from_rmw_message_info r1).source_timestamp = some t1
      ∧ (MessageInfo.from_rmw_message_info r2).source_timestamp = some t2
      ∧ t1.add (Duration.from_nanos (ts2 - ts1).toNat) = t2
      ∧ t2.nanosSinceEpoch - t1.nanosSinceEpoch = ts2 - ts1 := by
  have hne1 : ts1 ≠ 0 := by omega
  have hne2 : ts2 ≠ 0 := by omega
  have hnlt2 : ¬ ts2 < 0 := by omega
  refine ⟨⟨ts1⟩, ⟨ts2⟩, ?_, ?_, ?_, ?_⟩
  · rw [from_rmw_ts_eq_source, e1]
    simp [timestamp_to_system_time, hne1, hneg, SystemTime.sub,
      SystemTime.UNIX_EPOCH, Duration.from_nanos]
    rw [abs_of_neg hneg, neg_neg]
  · rw [from_rmw_ts_eq_source, e2]
    simp [timestamp_to_system_time, hne2, hnlt2, SystemTime.add,
      SystemTime.UNIX_EPOCH, Duration.from_nanos]
    exact le_of_lt hpos
  · show SystemTime.mk (ts1 + ((ts2 - ts1).toNat : Int)) = SystemTime.mk ts2
    exact congrArg SystemTime.mk (by omega)
  · simp

/-- Raw record with source timestamp minus five nanoseconds. -/
def recNeg5 : rmw_message_info_t :=
  { source_timestamp := -5
    received_timestamp := 0
    publication_sequence_number := 0
    reception_sequence_number := 0
    publisher_gid :=
      { data := List.replicate RMW_GID_STORAGE_SIZE 0
        implementation_identifier := 0 }
    from_intra_process := false }

/-- Raw record with source timestamp five nanoseconds. -/
def recPos5 : rmw_message_info_t :=
  { source_timestamp := 5
    received_timestamp := 0
    publication_sequence_number := 0
    reception_sequence_number := 0
    publisher_gid :=
      { data := List.replicate RMW_GID_STORAGE_SIZE 0
        implementation_identifier := 0 }
    from_intra_process := false }

/-- Claim C7, witness at raw timestamps minus five and five. -/
theorem from_rmw_opposite_timestamps_gap_witness :
    ∃ t1 t2 : SystemTime,
      (MessageInfo.from_rmw_message_info recNeg5).source_timestamp = some t1
      ∧ (MessageInfo.from_rmw_message_info recPos5).source_timestamp = some t2
      ∧ t1.add (Duration.from_nanos ((5 : Int) - (-5 : Int)).toNat) = t2
      ∧ t2.nanosSinceEpoch - t1.nanosSinceEpoch = (5 : Int) - (-5 : Int) :=
  from_rmw_opposite_timestamps_gap recNeg5 recPos5 (-5) 5 rfl rfl
    (by decide) (by decide) (by decide) (by decide)

/-- The raw record of the `negative_durations` unit test in the source. -/
def negative_durations_record : rmw_message_info_t :=
  { source_timestamp := -1000000000
    received_timestamp := 1000000000
    publication_sequence_number := 0
    reception_sequence_number := 0
    publisher_gid :=
      { data := List.replicate RMW_GID_STORAGE_SIZE 0
        implementation_identifier := 0 }
    from_intra_process := false }

/-- Claim C8: on the `negative_durations` test record the converted
source timestamp is present and lies exactly two seconds (2000000000
nanoseconds) before the converted received timestamp. -/
theorem negative_durations :
    ∃ s t : SystemTime,
      (MessageInfo.from_rmw_message_info
        negative_durations_record).source_timestamp = some s
      ∧ (MessageInfo.from_rmw_message_info
          negative_durations_record).received_timestamp = some t
      ∧ s.add (Duration.from_nanos 2000000000) = t := by
  refine ⟨⟨-1000000000⟩, ⟨1000000000⟩, ?_, ?_, ?_⟩ <;> decide

/-- Claim C10: the conversion never reads `from_intra_process` — flipping
only that field of any raw record leaves the result unchanged (and, the
conversion being a plain function, equal inputs give equal outputs). -/
theorem from_rmw_intra_process_independent (r : rmw_message_info_t)
    (b : Bool) :
    MessageInfo.from_rmw_message_info { r with from_intra_process := b }
      = MessageInfo.from_rmw_message_info r := rfl
